import Mathlib

/-!
Shallow embedding of the api-gateway-go repository: the intake handler
(`CreateReel`), the status handler (`GetRunStatus`), the SQS command
publisher (`PublishReelCommand`), and the configuration / secret loading
code (`GetCurrentEnvironment`, `GetSecretName`, `IsLocalDevelopment`,
`LoadFromSecretsManager`, `loadLocalSecrets`).

External library calls (the Go standard library `encoding/json`, the AWS
SDK, `os.Getenv`, and the `google/uuid` random source) are modelled as
explicit function parameters: JSON decoding of the request body is a
`String → Option CreateReelRequest` parameter, `json.Marshal` of an opaque
payload is an `α → Option String` parameter, the SQS `SendMessage` call is
a `SendMessageInput → Option String` parameter (`some e` is a transport
error), the process environment is a `String → String` map (empty string
for an unset variable, as `os.Getenv` returns), and the 16 random bytes
drawn by `uuid.New()` are a `List Nat` parameter. The rendering of a UUID
to its canonical string is embedded concretely, following
`google/uuid`: version and variant bits are set on bytes 6 and 8, and the
result is printed as lowercase hex in 8-4-4-4-12 groups.
-/

/-- Lowercase hexadecimal digit for a value below 16 (as produced by Go's
`%x` formatting used by `google/uuid`). -/
def hexDigit (n : Nat) : Char :=
  if n < 10 then Char.ofNat (48 + n) else Char.ofNat (87 + n)

/-- Two lowercase hex digits of one byte. -/
def byteHex (b : Nat) : String :=
  String.mk [hexDigit (b / 16 % 16), hexDigit (b % 16)]

/-- Lowercase hex rendering of a byte list. -/
def bytesHex : List Nat → String
  | [] => ""
  | b :: rest => byteHex b ++ bytesHex rest

/-- Version and variant bits set by `uuid.NewRandom`: byte 6 becomes
`0x40 ||| (b &&& 0x0f)` and byte 8 becomes `0x80 ||| (b &&& 0x3f)`. -/
def setVersion4 (bs : List Nat) : List Nat :=
  (bs.set 6 (bs.getD 6 0 % 16 + 64)).set 8 (bs.getD 8 0 % 64 + 128)

/-- Canonical string form of a 16-byte UUID, hex groups of sizes
8-4-4-4-12 joined by dashes (`uuid.UUID.String`). -/
def uuidFormat (bs : List Nat) : String :=
  bytesHex (bs.take 4) ++ "-" ++
  bytesHex ((bs.drop 4).take 2) ++ "-" ++
  bytesHex ((bs.drop 6).take 2) ++ "-" ++
  bytesHex ((bs.drop 8).take 2) ++ "-" ++
  bytesHex (bs.drop 10)

/-- Model of `uuid.New().String()`: the 16 random bytes are supplied as a
parameter, version-4 bits are applied, and the result is rendered
canonically. -/
def uuidNew (bs : List Nat) : String :=
  uuidFormat (setVersion4 bs)

/-- Modelled from the spec and the handler tests: `internal/models` is not
among the sources. Ideal-client-profile descriptor of the Reel Creation
Request (industry, pain points list, optional desired outcome); opaque
pass-through data to the core. -/
structure IdealClientProfile where
  industry : String
  audiencePainPoints : List String
  desiredOutcome : String
  deriving DecidableEq, Repr

/-- Modelled from the spec and the handler tests: model configuration of
the Reel Creation Request (asset reference URL, numeric tuning
parameters); opaque pass-through data. -/
structure FluxModelConfig where
  loraURL : String
  cfgScale : Int
  steps : Int
  deriving DecidableEq, Repr

/-- Modelled from the spec and the handler tests: generation prompt of the
Reel Creation Request; opaque pass-through data. -/
structure FluxPromptRequest where
  prompt : String
  negativePrompt : String
  aspectRatio : String
  batchSize : Int
  deriving DecidableEq, Repr

/-- Modelled from the spec and the handler tests: `internal/models` is not
among the sources. The Reel Creation Request payload; the core only reads
`projectID` (for logging) and otherwise passes the data through. -/
structure CreateReelRequest where
  projectID : String
  icp : IdealClientProfile
  idea : String
  fluxModel : FluxModelConfig
  fluxPrompt : FluxPromptRequest
  deriving DecidableEq, Repr

/-- Modelled from the spec and the handler tests: response body of
`POST /reels`, `{ runId }`. -/
structure CreateReelResponse where
  runID : String
  deriving DecidableEq, Repr

/-- Modelled from the spec: step record of a run status document (name,
status, timestamp, optional artifact references); `internal/models` is not
among the sources. Current scope only ever produces the empty list. -/
structure RunStep where
  name : String
  status : String
  timestamp : String
  artifacts : List String
  deriving DecidableEq, Repr

/-- Modelled from the spec and the handler tests: response body of
`GET /runs/\x7brunId\x7d`. -/
structure RunStatusResponse where
  runID : String
  status : String
  steps : List RunStep
  deriving DecidableEq, Repr

/-- Body written by a handler: `http.Error` plaintext, or one of the two
JSON documents. -/
inductive HBody where
  | text (s : String)
  | reel (r : CreateReelResponse)
  | run (r : RunStatusResponse)
  deriving DecidableEq, Repr

/-- HTTP response as the handlers produce it: status code plus body. -/
structure HttpResponse where
  status : Nat
  body : HBody
  deriving DecidableEq, Repr

/-- SQS message attribute value (`types.MessageAttributeValue` with
`DataType` and `StringValue`). -/
structure MessageAttributeValue where
  dataType : String
  stringValue : String
  deriving DecidableEq, Repr

/-- SQS `SendMessageInput`: queue URL, message body, message attributes. -/
structure SendMessageInput where
  queueUrl : String
  messageBody : String
  messageAttributes : List (String × MessageAttributeValue)
  deriving DecidableEq, Repr

/-- The `bus.Publisher` state: the configured queue URL (the SQS client
itself is modelled by the `send` parameter of `publishReelCommand`). -/
structure Publisher where
  queueURL : String
  deriving DecidableEq, Repr

/-- The `sqs.SendMessageInput` built by `PublishReelCommand`: the
configured queue URL, the serialized body, and a `runId` message attribute
typed `String` holding the run identifier. -/
def mkReelCommandInput (queueURL body runID : String) : SendMessageInput :=
  { queueUrl := queueURL
    messageBody := body
    messageAttributes := [("runId", { dataType := "String", stringValue := runID })] }

/-- Embedding of `Publisher.PublishReelCommand` (internal/bus/publisher.go).
`marshal` models `json.Marshal` on the opaque payload (`none` is a
serialization error); `send` models `sqsClient.SendMessage` (`some e` is a
transport error). The result pairs the returned error (if any) with the
list of `SendMessage` calls made. -/
def publishReelCommand {α : Type} (marshal : α → Option String)
    (send : SendMessageInput → Option String) (p : Publisher)
    (runID : String) (payload : α) : Option String × List SendMessageInput :=
  match marshal payload with
  | none => (some "json marshal error", [])
  | some body =>
    let input := mkReelCommandInput p.queueURL body runID
    match send input with
    | some e => (some e, [input])
    | none => (none, [input])

/-- Embedding of `handlers.CreateReel` (POST /reels). `decode` models
`json.NewDecoder(r.Body).Decode` into a `CreateReelRequest`; `bs` is the
random byte source of `uuid.New()`; `published` is the list of messages so
far published to the queue, threaded through to expose the handler's
effect on it (the source contains only a TODO where the publish call would
be, so the list is returned unchanged). -/
def createReel (decode : String → Option CreateReelRequest) (bs : List Nat)
    (method body : String) (published : List SendMessageInput) :
    HttpResponse × List SendMessageInput :=
  if method ≠ "POST" then
    ({ status := 405, body := .text "Method not allowed" }, published)
  else
    match decode body with
    | none => ({ status := 400, body := .text "Invalid request body" }, published)
    | some _req =>
      let runID := uuidNew bs
      ({ status := 202, body := .reel { runID := runID } }, published)

/-- Embedding of `handlers.GetRunStatus` (GET /runs/\x7brunId\x7d). The run
identifier is the path after the 6 characters of "/runs/", as in
`r.URL.Path[len("/runs/"):]`. -/
def getRunStatus (method path : String) : HttpResponse :=
  if method ≠ "GET" then
    { status := 405, body := .text "Method not allowed" }
  else
    let runID := path.drop 6
    if runID = "" then
      { status := 400, body := .text "Missing runId" }
    else
      { status := 200, body := .run { runID := runID, status := "PENDING", steps := [] } }

/-- Model of `strings.ToLower` as used on environment labels: lowercase
every character (structural map over the character list, agreeing with the
Go function on ASCII labels). -/
def lowerString (s : String) : String :=
  String.mk (s.data.map Char.toLower)

/-- Embedding of `config.GetCurrentEnvironment` applied to the raw value of
the `ENVIRONMENT` variable: lowercase it, keep it if it is one of
dev/staging/prod, otherwise default to dev. -/
def getCurrentEnvironment (raw : String) : String :=
  let env := lowerString raw
  if env = "dev" ∨ env = "staging" ∨ env = "prod" then env else "dev"

/-- Embedding of `config.GetSecretName`: append `-dev` for the dev
environment, otherwise `-label` for the resolved label. -/
def getSecretName (baseName raw : String) : String :=
  let currentEnv := getCurrentEnvironment raw
  if currentEnv = "dev" then baseName ++ "-dev"
  else baseName ++ "-" ++ currentEnv

/-- Embedding of `config.IsLocalDevelopment`: the `USE_LOCAL_SECRETS`
variable compared with the exact string "true". `env` models `os.Getenv`. -/
def isLocalDevelopment (env : String → String) : Bool :=
  env "USE_LOCAL_SECRETS" = "true"

/-- The `config.SecretsConfig` bundle. -/
structure SecretsConfig where
  apiKey : String
  databaseURL : String
  jwtSecret : String
  oauthClientID : String
  oauthClientSecret : String
  deriving DecidableEq, Repr

/-- Embedding of `config.loadLocalSecrets`: the bundle read strictly from
the fixed LOCAL_* variables. -/
def loadLocalSecrets (env : String → String) : SecretsConfig :=
  { apiKey := env "LOCAL_API_KEY"
    databaseURL := env "LOCAL_DATABASE_URL"
    jwtSecret := env "LOCAL_JWT_SECRET"
    oauthClientID := env "LOCAL_OAUTH_CLIENT_ID"
    oauthClientSecret := env "LOCAL_OAUTH_CLIENT_SECRET" }

/-- The five base secret names iterated by `LoadFromSecretsManager`. -/
def baseSecretsList : List String :=
  ["api-key", "database-url", "jwt-secret", "oauth-client-id", "oauth-client-secret"]

/-- Value extraction step of `LoadFromSecretsManager` for one retrieved
secret string: when the string is non-empty and `json.Unmarshal` succeeds
on it as an object (modelled by `parseObj`, whose value strings carry the
`fmt.Sprintf` rendering of the decoded field values), a field keyed by the
base name is extracted; in every other case the raw string is used as-is.
An empty retrieved string leaves the field at its zero value "". -/
def extractSecretField (baseName secretString : String)
    (parseObj : String → Option (List (String × String))) : String :=
  if secretString ≠ "" then
    match parseObj secretString with
    | some secretData =>
      match secretData.lookup baseName with
      | some val => val
      | none => secretString
    | none => secretString
  else ""

/-- Lookup step of `LoadFromSecretsManager` for one base name: try the
environment-resolved name first, fall back to the base name. `store`
models `client.GetSecretValue` (`none` is a not-found error). -/
def lookupSecretValue (store : String → Option String) (raw baseName : String) :
    Option String :=
  match store (getSecretName baseName raw) with
  | some v => some v
  | none => store baseName

/-- One iteration of the secret-loading loop: lookup with fallback, then
value extraction; both lookups missing leaves the field empty. -/
def loadOneSecret (env : String → String) (store : String → Option String)
    (parseObj : String → Option (List (String × String))) (baseName : String) : String :=
  match lookupSecretValue store (env "ENVIRONMENT") baseName with
  | none => ""
  | some s => extractSecretField baseName s parseObj

/-- Embedding of `config.LoadFromSecretsManager`. `sdkOk` models whether
`config.LoadDefaultConfig` succeeds (its failure is the only error path of
the non-local branch); `store` models the Secrets Manager client;
`parseObj` models `json.Unmarshal` into a string map as in
`extractSecretField`. -/
def loadFromSecretsManager (env : String → String) (sdkOk : Bool)
    (store : String → Option String)
    (parseObj : String → Option (List (String × String))) :
    Except String SecretsConfig :=
  if isLocalDevelopment env then
    .ok (loadLocalSecrets env)
  else if !sdkOk then
    .error "unable to load SDK config"
  else
    .ok { apiKey := loadOneSecret env store parseObj "api-key"
          databaseURL := loadOneSecret env store parseObj "database-url"
          jwtSecret := loadOneSecret env store parseObj "jwt-secret"
          oauthClientID := loadOneSecret env store parseObj "oauth-client-id"
          oauthClientSecret := loadOneSecret env store parseObj "oauth-client-secret" }

/-- Map a base secret name to the bundle field it populates. -/
def secretField (cfg : SecretsConfig) (baseName : String) : String :=
  if baseName = "api-key" then cfg.apiKey
  else if baseName = "database-url" then cfg.databaseURL
  else if baseName = "jwt-secret" then cfg.jwtSecret
  else if baseName = "oauth-client-id" then cfg.oauthClientID
  else cfg.oauthClientSecret

/-- One byte renders as exactly two hex characters. -/
lemma byteHex_length (b : Nat) : (byteHex b).length = 2 := rfl

/-- A byte list renders as twice its length in hex characters. -/
lemma bytesHex_length (bs : List Nat) : (bytesHex bs).length = 2 * bs.length := by
  induction bs with
  | nil => rfl
  | cons b rest ih =>
    simp only [bytesHex, String.length_append, byteHex_length, ih, List.length_cons]
    omega

/-- Setting the version and variant bits keeps the byte count. -/
lemma setVersion4_length (bs : List Nat) : (setVersion4 bs).length = bs.length := by
  simp [setVersion4]

/-- A UUID minted from 16 random bytes renders as a 36-character string. -/
lemma uuidNew_length (bs : List Nat) (h : bs.length = 16) : (uuidNew bs).length = 36 := by
  have hset : (setVersion4 bs).length = 16 := by rw [setVersion4_length, h]
  have hdash : ("-" : String).length = 1 := rfl
  simp only [uuidNew, uuidFormat, String.length_append, bytesHex_length, hdash,
    List.length_take, List.length_drop, hset]
  omega

/-- A freshly minted UUID string is non-empty. -/
lemma uuidNew_ne_empty (bs : List Nat) (h : bs.length = 16) : uuidNew bs ≠ "" := by
  intro hc
  have h36 := uuidNew_length bs h
  rw [hc] at h36
  exact absurd h36 (by decide)

/-- C2: the intake handler never invokes the Command Publisher and produces
no queue message at all: for any method, body, decode outcome, and random
bytes, the list of published messages after `CreateReel` equals the list
before it (the publish step is an unwired TODO in the source). -/
theorem createReel_never_publishes (decode : String → Option CreateReelRequest)
    (bs : List Nat) (method body : String) (published : List SendMessageInput) :
    (createReel decode bs method body published).2 = published := by
  unfold createReel
  split
  · rfl
  · cases decode body <;> rfl

/-- C3: the intake handler rejects every non-POST request with status 405
and every POST whose body does not decode as a `CreateReelRequest` with
status 400; in both cases the response body is the plaintext error (so no
run identifier is returned in a 202 response) and the list of published
messages is unchanged. -/
theorem createReel_rejections (decode : String → Option CreateReelRequest)
    (bs : List Nat) (method body : String) (published : List SendMessageInput) :
    (method ≠ "POST" →
      createReel decode bs method body published =
        ({ status := 405, body := .text "Method not allowed" }, published))
    ∧ (decode body = none →
      createReel decode bs "POST" body published =
        ({ status := 400, body := .text "Invalid request body" }, published)) := by
  constructor
  · intro h
    simp [createReel, h]
  · intro h
    simp [createReel, h]

/-- C3 witness: a GET to /reels yields 405 and a POST with an undecodable
body yields 400, both leaving the published list empty. -/
theorem createReel_rejections_witness :
    createReel (fun _ => none) [] "GET" "not json" [] =
      ({ status := 405, body := .text "Method not allowed" }, [])
    ∧ createReel (fun _ => none) [] "POST" "not json" [] =
      ({ status := 400, body := .text "Invalid request body" }, []) :=
  ⟨(createReel_rejections (fun _ => none) [] "GET" "not json" []).1 (by decide),
   (createReel_rejections (fun _ => none) [] "POST" "not json" []).2 rfl⟩

/-- C1 counterexample: at a concrete well-formed payload, `CreateReel`
returns 202 with a non-empty run identifier, yet the set of published
messages is empty: no message at all is published for the request, so no
published message carries the returned identifier as its `runId`
attribute, contrary to the claim. -/
theorem createReel_c1_counterexample :
    let req : CreateReelRequest :=
      { projectID := "proj_789"
        icp := { industry := "Digital marketing"
                 audiencePainPoints := ["Creating consistent content takes too much time"]
                 desiredOutcome := "" }
        idea := "Show how AI twins let you create reels in minutes"
        fluxModel := { loraURL := "https://v3.fal.media/files/lora.safetensors", cfgScale := 8, steps := 30 }
        fluxPrompt := { prompt := "Professional digital marketer", negativePrompt := "blurry",
                        aspectRatio := "9:16", batchSize := 4 } }
    let res := createReel (fun _ => some req) (List.replicate 16 0) "POST" "{}" []
    res.1.status = 202 ∧
    res.1.body = HBody.reel { runID := uuidNew (List.replicate 16 0) } ∧
    uuidNew (List.replicate 16 0) ≠ "" ∧
    res.2 = [] ∧
    ¬ ∃ m, m ∈ res.2 ∧
        m.messageAttributes.lookup "runId" =
          some { dataType := "String", stringValue := uuidNew (List.replicate 16 0) } := by
  intro req res
  refine ⟨rfl, rfl, uuidNew_ne_empty _ (by decide), rfl, ?_⟩
  rintro ⟨m, hm, -⟩
  have hres : res.2 = ([] : List SendMessageInput) := rfl
  rw [hres] at hm
  exact List.not_mem_nil m hm

/-- C1 (amended): for every well-formed payload, `CreateReel` on a POST
returns 202 with the freshly minted run identifier, a non-empty
36-character canonical UUID string; no message is published by the handler
in current scope (the publish step is an unwired TODO), so the published
list is returned unchanged rather than extended with a tagged message. -/
theorem createReel_accepted_response (decode : String → Option CreateReelRequest)
    (bs : List Nat) (body : String) (req : CreateReelRequest)
    (published : List SendMessageInput)
    (hdec : decode body = some req) (hbs : bs.length = 16) :
    (createReel decode bs "POST" body published).1 =
      { status := 202, body := .reel { runID := uuidNew bs } }
    ∧ (uuidNew bs).length = 36
    ∧ uuidNew bs ≠ ""
    ∧ (createReel decode bs "POST" body published).2 = published := by
  refine ⟨?_, uuidNew_length bs hbs, uuidNew_ne_empty bs hbs, ?_⟩
  · simp [createReel, hdec]
  · simp [createReel, hdec]

/-- C1 witness: the amended acceptance property evaluated at a concrete
well-formed payload and a concrete 16-byte random draw. -/
theorem createReel_accepted_response_witness :
    (createReel (fun _ => some { projectID := "proj_789"
                                 icp := { industry := "Digital marketing"
                                          audiencePainPoints := ["time"]
                                          desiredOutcome := "" }
                                 idea := "x"
                                 fluxModel := { loraURL := "https://example.com", cfgScale := 8, steps := 30 }
                                 fluxPrompt := { prompt := "y", negativePrompt := "",
                                                 aspectRatio := "9:16", batchSize := 4 } })
        (List.replicate 16 255) "POST" "{}" []).1 =
      { status := 202, body := .reel { runID := uuidNew (List.replicate 16 255) } }
    ∧ (uuidNew (List.replicate 16 255)).length = 36 :=
  let thm := createReel_accepted_response
    (fun _ => some { projectID := "proj_789"
                     icp := { industry := "Digital marketing"
                              audiencePainPoints := ["time"]
                              desiredOutcome := "" }
                     idea := "x"
                     fluxModel := { loraURL := "https://example.com", cfgScale := 8, steps := 30 }
                     fluxPrompt := { prompt := "y", negativePrompt := "",
                                     aspectRatio := "9:16", batchSize := 4 } })
    (List.replicate 16 255) "{}"
    { projectID := "proj_789"
      icp := { industry := "Digital marketing"
               audiencePainPoints := ["time"]
               desiredOutcome := "" }
      idea := "x"
      fluxModel := { loraURL := "https://example.com", cfgScale := 8, steps := 30 }
      fluxPrompt := { prompt := "y", negativePrompt := "",
                      aspectRatio := "9:16", batchSize := 4 } }
    [] rfl (by decide)
  ⟨thm.1, thm.2.1⟩

/-- Helper: in the successful-serialization branch, `publishReelCommand`
returns the send outcome as its error and records exactly the one
constructed input. -/
lemma publishReelCommand_some {α : Type} (marshal : α → Option String)
    (send : SendMessageInput → Option String) (p : Publisher)
    (runID : String) (payload : α) (body : String)
    (hm : marshal payload = some body) :
    publishReelCommand marshal send p runID payload =
      (send (mkReelCommandInput p.queueURL body runID),
       [mkReelCommandInput p.queueURL body runID]) := by
  simp only [publishReelCommand, hm]
  cases send (mkReelCommandInput p.queueURL body runID) <;> rfl

/-- C4: `PublishReelCommand` returns an error exactly when JSON
serialization of the payload fails or the queue send fails; when
serialization succeeds it makes exactly one `SendMessage` call, whose
input targets the configured queue URL, carries the JSON serialization as
its body, and carries a `runId` message attribute typed `String` whose
value is the given run identifier; when serialization fails nothing is
sent. -/
theorem publishReelCommand_contract {α : Type} (marshal : α → Option String)
    (send : SendMessageInput → Option String) (p : Publisher)
    (runID : String) (payload : α) :
    ((publishReelCommand marshal send p runID payload).1 ≠ none ↔
      (marshal payload = none ∨
        ∃ body, marshal payload = some body ∧
          send (mkReelCommandInput p.queueURL body runID) ≠ none))
    ∧ (∀ body, marshal payload = some body →
        (publishReelCommand marshal send p runID payload).2 =
          [mkReelCommandInput p.queueURL body runID]
        ∧ (mkReelCommandInput p.queueURL body runID).queueUrl = p.queueURL
        ∧ (mkReelCommandInput p.queueURL body runID).messageBody = body
        ∧ (mkReelCommandInput p.queueURL body runID).messageAttributes =
            [("runId", { dataType := "String", stringValue := runID })]
        ∧ ((publishReelCommand marshal send p runID payload).1 = none ↔
            send (mkReelCommandInput p.queueURL body runID) = none))
    ∧ (marshal payload = none →
        (publishReelCommand marshal send p runID payload).1 ≠ none ∧
        (publishReelCommand marshal send p runID payload).2 = []) := by
  refine ⟨?_, ?_, ?_⟩
  · cases hm : marshal payload with
    | none => simp [publishReelCommand, hm]
    | some body =>
      rw [publishReelCommand_some marshal send p runID payload body hm]
      cases hs : send (mkReelCommandInput p.queueURL body runID) with
      | none => simp [hm, hs]
      | some e => simp [hm, hs]
  · intro body hm
    rw [publishReelCommand_some marshal send p runID payload body hm]
    exact ⟨rfl, rfl, rfl, rfl, Iff.rfl⟩
  · intro hm
    simp [publishReelCommand, hm]

/-- C4 witness: with a payload whose serialization is "\x7b\x7d", a
successful transport, queue URL "q" and run identifier "run-456", exactly
the expected tagged message is sent and no error is returned. -/
theorem publishReelCommand_contract_witness :
    (publishReelCommand (fun _ : Nat => some "\x7b\x7d") (fun _ => none)
        { queueURL := "q" } "run-456" 0).2 =
      [mkReelCommandInput "q" "\x7b\x7d" "run-456"]
    ∧ (publishReelCommand (fun _ : Nat => some "\x7b\x7d") (fun _ => none)
        { queueURL := "q" } "run-456" 0).1 = none := by
  have h := (publishReelCommand_contract (fun _ : Nat => some "\x7b\x7d")
    (fun _ => none) { queueURL := "q" } "run-456" 0).2.1 "\x7b\x7d" rfl
  exact ⟨h.1, h.2.2.2.2.mpr rfl⟩

/-- C5: environment-key resolution is total and deterministic: the dev
label and the empty (unset) label give `base-dev`, staging and prod give
`base-staging` and `base-prod`, every unrecognized label falls back to
`base-dev`; in particular `api-key` under `staging` resolves to
`api-key-staging` and under `unknown` to `api-key-dev`. -/
theorem getSecretName_resolution (base raw : String)
    (h : lowerString raw ≠ "dev" ∧ lowerString raw ≠ "staging" ∧ lowerString raw ≠ "prod") :
    getSecretName base "dev" = base ++ "-dev"
    ∧ getSecretName base "" = base ++ "-dev"
    ∧ getSecretName base "staging" = base ++ "-staging"
    ∧ getSecretName base "prod" = base ++ "-prod"
    ∧ getSecretName base raw = base ++ "-dev"
    ∧ getSecretName "api-key" "staging" = "api-key-staging"
    ∧ getSecretName "api-key" "unknown" = "api-key-dev" := by
  obtain ⟨h1, h2, h3⟩ := h
  have hdev : getCurrentEnvironment "dev" = "dev" := by decide
  have hempty : getCurrentEnvironment "" = "dev" := by decide
  have hstg : getCurrentEnvironment "staging" = "staging" := by decide
  have hprd : getCurrentEnvironment "prod" = "prod" := by decide
  have hcat1 : "-" ++ "staging" = "-staging" := by decide
  have hcat2 : "-" ++ "prod" = "-prod" := by decide
  have hraw : getCurrentEnvironment raw = "dev" := by
    simp [getCurrentEnvironment, h1, h2, h3]
  refine ⟨?_, ?_, ?_, ?_, ?_, by decide, by decide⟩
  · simp [getSecretName, hdev]
  · simp [getSecretName, hempty]
  · simp [getSecretName, hstg, String.append_assoc, hcat1]
  · simp [getSecretName, hprd, String.append_assoc, hcat2]
  · simp [getSecretName, hraw]

/-- C5 witness: the resolution facts evaluated with the concrete
unrecognized label "unknown". -/
theorem getSecretName_resolution_witness :
    getSecretName "api-key" "unknown" = "api-key-dev"
    ∧ getSecretName "api-key" "staging" = "api-key-staging" :=
  let h := getSecretName_resolution "api-key" "unknown"
    ⟨by decide, by decide, by decide⟩
  ⟨h.2.2.2.2.2.2, h.2.2.2.2.2.1⟩

/-- Helper: case analysis of one iteration of the secret-loading loop:
environment-resolved name first, base-name fallback, empty on a double
miss. -/
lemma loadOneSecret_cases (env : String → String) (store : String → Option String)
    (parseObj : String → Option (List (String × String))) (base : String) :
    (∀ v, store (getSecretName base (env "ENVIRONMENT")) = some v →
      loadOneSecret env store parseObj base = extractSecretField base v parseObj)
    ∧ (store (getSecretName base (env "ENVIRONMENT")) = none →
      ∀ v, store base = some v →
      loadOneSecret env store parseObj base = extractSecretField base v parseObj)
    ∧ (store (getSecretName base (env "ENVIRONMENT")) = none →
      store base = none → loadOneSecret env store parseObj base = "") := by
  refine ⟨?_, ?_, ?_⟩
  · intro v hv
    simp [loadOneSecret, lookupSecretValue, hv]
  · intro h1 v hv
    simp [loadOneSecret, lookupSecretValue, h1, hv]
  · intro h1 h2
    simp [loadOneSecret, lookupSecretValue, h1, h2]

/-- C6: in non-local mode with a loadable SDK config, the load never fails:
it returns a bundle in which each of the five named secrets was looked up
under its environment-resolved name first, then under the base name, and
is left empty when both lookups miss; no individual miss fails the load. -/
theorem loadFromSecretsManager_fallback (env : String → String)
    (store : String → Option String)
    (parseObj : String → Option (List (String × String)))
    (h : isLocalDevelopment env = false) :
    ∃ cfg, loadFromSecretsManager env true store parseObj = Except.ok cfg ∧
      ∀ base, base ∈ baseSecretsList →
        secretField cfg base = loadOneSecret env store parseObj base
        ∧ (∀ v, store (getSecretName base (env "ENVIRONMENT")) = some v →
            secretField cfg base = extractSecretField base v parseObj)
        ∧ (store (getSecretName base (env "ENVIRONMENT")) = none →
            ∀ v, store base = some v →
            secretField cfg base = extractSecretField base v parseObj)
        ∧ (store (getSecretName base (env "ENVIRONMENT")) = none →
            store base = none → secretField cfg base = "") := by
  refine ⟨{ apiKey := loadOneSecret env store parseObj "api-key"
            databaseURL := loadOneSecret env store parseObj "database-url"
            jwtSecret := loadOneSecret env store parseObj "jwt-secret"
            oauthClientID := loadOneSecret env store parseObj "oauth-client-id"
            oauthClientSecret := loadOneSecret env store parseObj "oauth-client-secret" },
          by simp [loadFromSecretsManager, h], ?_⟩
  intro base hb
  have hcases := loadOneSecret_cases env store parseObj base
  have hfield : secretField
      { apiKey := loadOneSecret env store parseObj "api-key"
        databaseURL := loadOneSecret env store parseObj "database-url"
        jwtSecret := loadOneSecret env store parseObj "jwt-secret"
        oauthClientID := loadOneSecret env store parseObj "oauth-client-id"
        oauthClientSecret := loadOneSecret env store parseObj "oauth-client-secret" }
      base = loadOneSecret env store parseObj base := by
    fin_cases hb <;> simp [secretField]
  refine ⟨hfield, ?_, ?_, ?_⟩
  · intro v hv
    rw [hfield]
    exact hcases.1 v hv
  · intro h1 v hv
    rw [hfield]
    exact hcases.2.1 h1 v hv
  · intro h1 h2
    rw [hfield]
    exact hcases.2.2 h1 h2

/-- C6 witness: with every remote lookup missing, the load still succeeds
and the api-key field is empty. -/
theorem loadFromSecretsManager_fallback_witness :
    ∃ cfg, loadFromSecretsManager (fun _ => "") true (fun _ => none) (fun _ => none) =
        Except.ok cfg ∧ secretField cfg "api-key" = "" := by
  obtain ⟨cfg, hok, hall⟩ := loadFromSecretsManager_fallback (fun _ => "")
    (fun _ => none) (fun _ => none) (by decide)
  exact ⟨cfg, hok, (hall "api-key" (by simp [baseSecretsList])).2.2.2 rfl rfl⟩

/-- C7: for every retrieved secret value, if it parses as a JSON object
containing a field keyed by the base secret name, the stored field is that
inner field's value; otherwise — not JSON, JSON without that key, or the
empty string — the stored field is the raw retrieved string verbatim. -/
theorem extractSecretField_contract (base s : String)
    (parseObj : String → Option (List (String × String))) :
    (∀ obj v, s ≠ "" → parseObj s = some obj → obj.lookup base = some v →
      extractSecretField base s parseObj = v)
    ∧ (s ≠ "" → parseObj s = none → extractSecretField base s parseObj = s)
    ∧ (∀ obj, s ≠ "" → parseObj s = some obj → obj.lookup base = none →
      extractSecretField base s parseObj = s)
    ∧ (s = "" → extractSecretField base s parseObj = s) := by
  refine ⟨?_, ?_, ?_, ?_⟩
  · intro obj v hs hp hl
    simp [extractSecretField, hs, hp, hl]
  · intro hs hp
    simp [extractSecretField, hs, hp]
  · intro obj hs hp hl
    simp [extractSecretField, hs, hp, hl]
  · intro hs
    simp [extractSecretField, hs]

/-- C7 witness: a JSON-object secret value yields the inner field, a
non-JSON value is stored verbatim. -/
theorem extractSecretField_contract_witness :
    extractSecretField "api-key" "enc" (fun _ => some [("api-key", "inner")]) = "inner"
    ∧ extractSecretField "api-key" "raw-value" (fun _ => none) = "raw-value" :=
  ⟨(extractSecretField_contract "api-key" "enc" (fun _ => some [("api-key", "inner")])).1
      [("api-key", "inner")] "inner" (by decide) rfl (by decide),
   (extractSecretField_contract "api-key" "raw-value" (fun _ => none)).2.1 (by decide) rfl⟩

/-- C8: when USE_LOCAL_SECRETS is the string "true", the load returns the
bundle read strictly from the fixed LOCAL_* variables, makes no use of the
remote store, the SDK config, or the JSON parser — the result is the same
for every remote-store state — and never fails. -/
theorem loadFromSecretsManager_local (env : String → String)
    (sdkOk sdkOk' : Bool) (store store' : String → Option String)
    (parseObj parseObj' : String → Option (List (String × String)))
    (h : isLocalDevelopment env = true) :
    loadFromSecretsManager env sdkOk store parseObj = Except.ok (loadLocalSecrets env)
    ∧ loadFromSecretsManager env sdkOk store parseObj =
        loadFromSecretsManager env sdkOk' store' parseObj'
    ∧ loadLocalSecrets env =
        { apiKey := env "LOCAL_API_KEY"
          databaseURL := env "LOCAL_DATABASE_URL"
          jwtSecret := env "LOCAL_JWT_SECRET"
          oauthClientID := env "LOCAL_OAUTH_CLIENT_ID"
          oauthClientSecret := env "LOCAL_OAUTH_CLIENT_SECRET" } := by
  refine ⟨?_, ?_, rfl⟩
  · simp [loadFromSecretsManager, h]
  · simp [loadFromSecretsManager, h]

/-- C8 witness: with the local flag set, two different remote stores and
SDK outcomes produce the same local bundle. -/
theorem loadFromSecretsManager_local_witness :
    loadFromSecretsManager (fun _ => "true") false (fun _ => none) (fun _ => none) =
      Except.ok (loadLocalSecrets (fun _ => "true"))
    ∧ loadFromSecretsManager (fun _ => "true") false (fun _ => none) (fun _ => none) =
      loadFromSecretsManager (fun _ => "true") true (fun _ => some "remote") (fun _ => some []) :=
  let h := loadFromSecretsManager_local (fun _ => "true") false true
    (fun _ => none) (fun _ => some "remote") (fun _ => none) (fun _ => some []) rfl
  ⟨h.1, h.2.1⟩

/-- C9: every GET whose path extends "/runs/" by a non-empty segment gets
status 200 with a status document whose run identifier is exactly that
path segment, whose status is the fixed placeholder PENDING, and whose
step list is empty. -/
theorem getRunStatus_ok (path : String)
    (hpre : path.take 6 = "/runs/") (hne : path.drop 6 ≠ "") :
    getRunStatus "GET" path =
      { status := 200
        body := .run { runID := path.drop 6, status := "PENDING", steps := [] } } := by
  simp [getRunStatus, hne]

/-- C9 witness: the placeholder status document for a concrete run path. -/
theorem getRunStatus_ok_witness :
    getRunStatus "GET" "/runs/test-run-123" =
      { status := 200
        body := .run { runID := "test-run-123", status := "PENDING", steps := [] } } := by
  have h := getRunStatus_ok "/runs/test-run-123" (by decide) (by decide)
  rw [h]
  have hdrop : ("/runs/test-run-123" : String).drop 6 = "test-run-123" := by decide
  rw [hdrop]

/-- C10: the status handler answers every non-GET request with status 405,
and a GET whose run segment after "/runs/" is empty with status 400. -/
theorem getRunStatus_rejections (method path : String) :
    (method ≠ "GET" →
      getRunStatus method path = { status := 405, body := .text "Method not allowed" })
    ∧ (path.drop 6 = "" →
      getRunStatus "GET" path = { status := 400, body := .text "Missing runId" }) := by
  constructor
  · intro h
    simp [getRunStatus, h]
  · intro h
    simp [getRunStatus, h]

/-- C10 witness: a POST to a run path yields 405 and a GET to the bare
"/runs/" yields 400. -/
theorem getRunStatus_rejections_witness :
    getRunStatus "POST" "/runs/test-run" = { status := 405, body := .text "Method not allowed" }
    ∧ getRunStatus "GET" "/runs/" = { status := 400, body := .text "Missing runId" } :=
  ⟨(getRunStatus_rejections "POST" "/runs/test-run").1 (by decide),
   (getRunStatus_rejections "GET" "/runs/").2 (by decide)⟩
